import Mathlib

/-!
Shallow embedding of `colossalai/booster/plugin/moe_hybrid_parallel_plugin.py`:
the MoE hybrid-parallel plugin (`MoeHybridParallelPlugin.__init__`, `configure`)
and its sharded optimizer (`MoeHybridParallelZeroOptimizer.__init__`).

External collaborators (torch process groups, the base `HybridParallelPlugin`
state set by `super().__init__`, `is_moe_tensor`, `reinitialize_optimizer`, the
optimizer wrapper classes) are represented abstractly: values they produce are
type parameters, and calls to them are recorded as events in an execution
trace.  `ProcessGroupMesh` is not part of the sources and is modelled from the
spec.
-/

set_option autoImplicit false

namespace MoePlugin

/-- Observable actions performed while the plugin constructor or `configure`
runs: warnings emitted via `warnings.warn`, mutation of the DDP config,
construction of the MoE process-group mesh, the call to
`reinitialize_optimizer`, wrapping the model in `HybridParallelModule`,
construction of each optimizer-wrapper flavour, and the `MethodType`
injection of `update_master_params` onto the model. -/
inductive Event
  | warnFindUnusedParams
  | ddpSetFindUnused
  | meshBuilt
  | warnOverlapRisk
  | warnZeroOverhead
  | reinitializeOptimizer
  | wrapModel
  | constructAMPOptimizer
  | constructNaiveOptimizer
  | constructZeroOptimizer
  | attachUpdateMasterParams
  deriving DecidableEq, Repr

/-- Errors raised by the embedded code.  `configurationError` stands for the
`RuntimeError` raised by `MoeHybridParallelZeroOptimizer.__init__` and the
`ConfigurationError` of the spec's mesh contract; `notImplementedError` is the
`NotImplementedError` for `moe_tp_size != 1`; `zeroDivisionError` is Python's
error for `world_size // 0`. -/
inductive PluginError
  | configurationError
  | notImplementedError
  | zeroDivisionError
  deriving DecidableEq, Repr

/-! ## MoeHybridParallelZeroOptimizer.__init__ -/

/-- Arguments of `MoeHybridParallelZeroOptimizer.__init__` that the embedded
logic inspects.  `P` is the type of model parameters; `modelParameters` is
`model.parameters()` and `isMoeTensor` is the classifier predicate
`is_moe_tensor`. -/
structure ZeroOptInitArgs (P : Type) where
  forceOverlapComm : Bool
  overlapCommunication : Bool
  partitionGrad : Bool
  modelParameters : List P
  isMoeTensor : P → Bool

/-- The `pg_param_list` dict built in `MoeHybridParallelZeroOptimizer.__init__`:
the `dp_process_group` entry is `list(filter(lambda p: not is_moe_tensor(p),
model.parameters()))`, the `moe_dp_group` entry is
`list(filter(is_moe_tensor, model.parameters()))`. -/
def pg_param_list {P : Type} (isMoeTensor : P → Bool) (params : List P) :
    List P × List P :=
  (params.filter (fun p => !isMoeTensor p), params.filter (fun p => isMoeTensor p))

/-- The part of the state passed to `super().__init__` that the claims are
about: the (possibly forced) `overlap_communication` flag, the
`partition_grad` flag, and the two parameter groups of `pg_to_param_list`. -/
structure ZeroOptState (P : Type) where
  overlapCommunication : Bool
  partitionGrad : Bool
  dpGroupParams : List P
  moeDpGroupParams : List P
  deriving DecidableEq, Repr

/-- Embedding of `MoeHybridParallelZeroOptimizer.__init__`: raises when
`not force_overlap_comm and (overlap_communication or partition_grad)`;
when `force_overlap_comm` it warns and sets `overlap_communication = True`;
then builds `pg_param_list` and delegates to `super().__init__`. -/
def moeZeroOptimizerInit {P : Type} (a : ZeroOptInitArgs P) :
    List Event × Except PluginError (ZeroOptState P) :=
  if !a.forceOverlapComm && (a.overlapCommunication || a.partitionGrad) then
    ([], .error .configurationError)
  else
    let warnEvents := if a.forceOverlapComm then [Event.warnOverlapRisk] else []
    let overlap := if a.forceOverlapComm then true else a.overlapCommunication
    let pgl := pg_param_list a.isMoeTensor a.modelParameters
    (warnEvents,
     .ok { overlapCommunication := overlap
           partitionGrad := a.partitionGrad
           dpGroupParams := pgl.1
           moeDpGroupParams := pgl.2 })

/-! ## ProcessGroupMesh (modelled from the spec) -/

/-- Modelled from the spec: `ProcessGroupMesh` is code of this repository that
is not under `src/` (only its caller `MoeHybridParallelPlugin.__init__` is).
Per spec section 4.1, `build(axisSizes) -> Mesh` "fails with
`ConfigurationError` if the product of sizes ≠ worldSize". -/
def processGroupMeshBuild (worldSize : Nat) (axisSizes : List Nat) :
    Except PluginError (List Nat) :=
  if axisSizes.prod = worldSize then .ok axisSizes else .error .configurationError

/-! ## MoeHybridParallelPlugin.__init__ -/

/-- Inputs of `MoeHybridParallelPlugin.__init__`: the explicit arguments
`ep_size`, `moe_tp_size`, `force_overlap_comm`, together with the state the
base-class `super().__init__` leaves behind (`dp_size`, `pp_size`,
`zero_stage`, the incoming `ddp_config["find_unused_parameters"]` value) and
`dist.get_world_size()`. -/
structure PluginInitArgs where
  epSize : Nat
  moeTpSize : Nat
  forceOverlapComm : Bool
  dpSize : Nat
  ppSize : Nat
  zeroStage : Nat
  ddpFindUnusedParameters : Bool
  worldSize : Nat
  deriving DecidableEq, Repr

/-- The plugin state fields set by `MoeHybridParallelPlugin.__init__` that the
claims are about. -/
structure PluginState where
  useDdp : Bool
  ddpFindUnusedParameters : Bool
  moeDpSize : Nat
  epSize : Nat
  moeTpSize : Nat
  forceOverlapComm : Bool
  deriving DecidableEq, Repr

/-- Embedding of `MoeHybridParallelPlugin.__init__` after `super().__init__`: computes
`use_ddp`, possibly warns and sets `ddp_config["find_unused_parameters"]`,
raises `NotImplementedError` when `moe_tp_size != 1`, computes
`moe_dp_size = world_size // (ep_size * moe_tp_size)` and builds the
`ProcessGroupMesh(moe_dp_size, ep_size, moe_tp_size)`. -/
def moeHybridParallelPluginInit (a : PluginInitArgs) :
    List Event × Except PluginError PluginState :=
  let useDdp := a.dpSize > 1 && a.ppSize == 1 && a.zeroStage == 0
  let ddpEvents := if useDdp then [Event.warnFindUnusedParams, Event.ddpSetFindUnused] else []
  let ddpFlag := if useDdp then true else a.ddpFindUnusedParameters
  if a.moeTpSize ≠ 1 then (ddpEvents, .error .notImplementedError)
  else if a.epSize * a.moeTpSize = 0 then (ddpEvents, .error .zeroDivisionError)
  else
    let moeDpSize := a.worldSize / (a.epSize * a.moeTpSize)
    match processGroupMeshBuild a.worldSize [moeDpSize, a.epSize, a.moeTpSize] with
    | .error e => (ddpEvents, .error e)
    | .ok _ =>
      (ddpEvents ++ [Event.meshBuilt],
       .ok { useDdp := useDdp
             ddpFindUnusedParameters := ddpFlag
             moeDpSize := moeDpSize
             epSize := a.epSize
             moeTpSize := a.moeTpSize
             forceOverlapComm := a.forceOverlapComm })

/-! ## MoeHybridParallelPlugin.configure -/

/-- The `precision` plugin field as far as `configure` inspects it:
`if self.precision in ["fp16", "bf16"]` selects the AMP optimizer. -/
inductive Precision
  | fp16
  | bf16
  | fp32
  deriving DecidableEq, Repr

/-- The `model` argument of `configure`: either already a `ModelWrapper`
(`isinstance(model, ModelWrapper)`) or a plain module, carrying the
underlying value of abstract type `M`. -/
inductive ModelArg (M : Type)
  | plain (m : M)
  | wrapper (m : M)
  deriving DecidableEq, Repr

/-- The `optimizer` argument of `configure` when not `None`: either already an
`OptimizerWrapper` or a plain `torch.optim.Optimizer`. -/
inductive OptimizerArg (O : Type)
  | plain (o : O)
  | wrapper (o : O)
  deriving DecidableEq, Repr

/-- How a method ends up on the model object.  The code's
`model.update_master_params = MethodType(optimizer.update_master_params,
model)` is a runtime `MethodType` rebinding; the spec instead describes an
explicit interface method. -/
inductive AttachMechanism
  | methodTypeRebinding
  | interfaceMethod
  deriving DecidableEq, Repr

/-- The optimizer `configure` returns: the input passed through untouched, or
one of the three wrapper flavours built around the underlying optimizer `o`
(`HybridParallelAMPOptimizer`, `HybridParallelNaiveOptimizer`,
`MoeHybridParallelZeroOptimizer` with its embedded init state). -/
inductive OptimizerOut (O P : Type)
  | passthrough (o : Option (OptimizerArg O))
  | amp (o : O)
  | naive (o : O)
  | moeZero (o : O) (s : ZeroOptState P)
  deriving DecidableEq, Repr

/-- The model `configure` returns: the underlying module, whether the input
was already a `ModelWrapper`, whether `configure` wrapped it in
`HybridParallelModule`, and the `update_master_params` attribute — `none`
unless the injection line ran, otherwise the optimizer whose
`update_master_params` it is bound to plus the attachment mechanism. -/
structure ModelOut (M O P : Type) where
  base : M
  wasWrapperInput : Bool
  wrappedByConfigure : Bool
  updateMasterParams : Option (OptimizerOut O P × AttachMechanism)
  deriving DecidableEq, Repr

/-- The plugin state `configure` reads: sizes from `__init__`, the precision,
`force_overlap_comm`, the `zero_config` entries forwarded to the zero
optimizer, and the `is_moe_tensor` classifier used there. -/
structure ConfigureCtx (P : Type) where
  epSize : Nat
  zeroStage : Nat
  dpSize : Nat
  moeDpSize : Nat
  precision : Precision
  forceOverlapComm : Bool
  zeroOverlapCommunication : Bool
  zeroPartitionGrad : Bool
  isMoeTensor : P → Bool

/-- Embedding of `MoeHybridParallelPlugin.configure`.  `modelParameters` is the parameter
list of the (wrapped) model that `MoeHybridParallelZeroOptimizer` filters;
`criterion`, `dataloader`, `lrScheduler` flow through.  Returns the trace of
events together with the result five-tuple, or the error the zero-optimizer
constructor raises. -/
def configure {P M O C D L : Type} (ctx : ConfigureCtx P) (model : ModelArg M)
    (modelParameters : List P) (optimizer : Option (OptimizerArg O))
    (criterion : C) (dataloader : D) (lrScheduler : L) :
    List Event × Except PluginError (ModelOut M O P × OptimizerOut O P × C × D × L) :=
  let wrapStep : List Event × ModelOut M O P :=
    match model with
    | .wrapper m =>
      ([], { base := m, wasWrapperInput := true, wrappedByConfigure := false
             updateMasterParams := none })
    | .plain m =>
      ([Event.wrapModel],
       { base := m, wasWrapperInput := false, wrappedByConfigure := true
         updateMasterParams := none })
  let wrapEvents := wrapStep.1
  let model0 := wrapStep.2
  match optimizer with
  | none =>
    (wrapEvents, .ok (model0, .passthrough none, criterion, dataloader, lrScheduler))
  | some (.wrapper o) =>
    (wrapEvents,
     .ok (model0, .passthrough (some (.wrapper o)), criterion, dataloader, lrScheduler))
  | some (.plain o) =>
    let reinitEvents := if ctx.epSize > 1 then [Event.reinitializeOptimizer] else []
    if ctx.zeroStage = 0 then
      let constructStep : Event × OptimizerOut O P :=
        match ctx.precision with
        | .fp16 => (Event.constructAMPOptimizer, .amp o)
        | .bf16 => (Event.constructAMPOptimizer, .amp o)
        | .fp32 => (Event.constructNaiveOptimizer, .naive o)
      (wrapEvents ++ reinitEvents ++ [constructStep.1, Event.attachUpdateMasterParams],
       .ok ({ model0 with
              updateMasterParams := some (constructStep.2, .methodTypeRebinding) },
            constructStep.2, criterion, dataloader, lrScheduler))
    else
      let warnEvents :=
        if ¬(ctx.dpSize > 1 ∨ ctx.moeDpSize > 1) then [Event.warnZeroOverhead] else []
      match moeZeroOptimizerInit
          { forceOverlapComm := ctx.forceOverlapComm
            overlapCommunication := ctx.zeroOverlapCommunication
            partitionGrad := ctx.zeroPartitionGrad
            modelParameters := modelParameters
            isMoeTensor := ctx.isMoeTensor } with
      | (zeroEvents, .error e) =>
        (wrapEvents ++ reinitEvents ++ warnEvents ++ zeroEvents, .error e)
      | (zeroEvents, .ok zs) =>
        let opt : OptimizerOut O P := .moeZero o zs
        (wrapEvents ++ reinitEvents ++ warnEvents ++ zeroEvents ++
           [Event.constructZeroOptimizer, Event.attachUpdateMasterParams],
         .ok ({ model0 with updateMasterParams := some (opt, .methodTypeRebinding) },
              opt, criterion, dataloader, lrScheduler))

/-- The three events that stand for construction of an optimizer wrapper
(`HybridParallelAMPOptimizer`, `HybridParallelNaiveOptimizer`,
`MoeHybridParallelZeroOptimizer`). -/
def constructorEvents : List Event :=
  [Event.constructAMPOptimizer, Event.constructNaiveOptimizer, Event.constructZeroOptimizer]

/-- Holds (`true`) iff `Event.reinitializeOptimizer` occurs in the trace strictly
before any optimizer-wrapper construction event. -/
def reinitBeforeConstruct : List Event → Bool
  | [] => false
  | e :: rest =>
    if e = Event.reinitializeOptimizer then true
    else if e ∈ constructorEvents then false
    else reinitBeforeConstruct rest

/-- Holds (`true`) when the `optimizer` argument takes the pass-through
path: `None`, or already an `OptimizerWrapper`. -/
def passthroughOptimizerArg {O : Type} : Option (OptimizerArg O) → Bool
  | none => true
  | some (.wrapper _) => true
  | some (.plain _) => false

/-- Holds (`true`) when the returned optimizer is the `MoeHybridParallelZeroOptimizer`
wrapper. -/
def isMoeZeroOut {O P : Type} : OptimizerOut O P → Bool
  | .moeZero _ _ => true
  | _ => false

/-! ## Theorems for the claims -/

/-- C1: if `force_overlap_comm` is false and `overlap_communication` or
`partition_grad` is true, `MoeHybridParallelZeroOptimizer.__init__` fails with
a configuration error; if `force_overlap_comm` is true the check never fails,
a warning is emitted, and `overlap_communication` is enabled regardless of the
caller's value. -/
theorem c1_force_overlap_comm_check {P : Type} (a : ZeroOptInitArgs P) :
    (a.forceOverlapComm = false ∧
        (a.overlapCommunication = true ∨ a.partitionGrad = true) →
       (moeZeroOptimizerInit a).2 = .error .configurationError) ∧
    (a.forceOverlapComm = true →
       Event.warnOverlapRisk ∈ (moeZeroOptimizerInit a).1 ∧
       (moeZeroOptimizerInit a).2.map (fun s => s.overlapCommunication) = .ok true) := by
  constructor
  · rintro ⟨hf, hop⟩
    rcases hop with h | h <;> simp [moeZeroOptimizerInit, hf, h]
  · intro hf
    simp [moeZeroOptimizerInit, hf, Except.map]

/-- Concrete arguments on which the C1 check denies construction. -/
def zeroArgsDenied : ZeroOptInitArgs Nat :=
  { forceOverlapComm := false, overlapCommunication := true, partitionGrad := false
    modelParameters := [], isMoeTensor := fun _ => false }

/-- Concrete arguments with `force_overlap_comm = True`. -/
def zeroArgsForced : ZeroOptInitArgs Nat :=
  { forceOverlapComm := true, overlapCommunication := false, partitionGrad := false
    modelParameters := [], isMoeTensor := fun _ => false }

/-- Witness for C1 at `zeroArgsDenied` and `zeroArgsForced`. -/
theorem c1_witness :
    (moeZeroOptimizerInit zeroArgsDenied).2 = .error .configurationError ∧
    (Event.warnOverlapRisk ∈ (moeZeroOptimizerInit zeroArgsForced).1 ∧
     (moeZeroOptimizerInit zeroArgsForced).2.map (fun s => s.overlapCommunication) =
       .ok true) :=
  ⟨(c1_force_overlap_comm_check zeroArgsDenied).1 ⟨rfl, Or.inl rfl⟩,
   (c1_force_overlap_comm_check zeroArgsForced).2 rfl⟩

/-- C2: `pg_param_list` splits the parameter list into the regular group's
list (classifier rejects) and the expert group's list (classifier accepts);
the two are disjoint, their concatenation is a permutation of the input, and
each is a sublist of the input (preserving relative order). -/
theorem c2_pg_param_list_partition {P : Type} (isMoeTensor : P → Bool)
    (params : List P) :
    List.Perm
      ((pg_param_list isMoeTensor params).1 ++ (pg_param_list isMoeTensor params).2)
      params ∧
    List.Disjoint (pg_param_list isMoeTensor params).1
      (pg_param_list isMoeTensor params).2 ∧
    List.Sublist (pg_param_list isMoeTensor params).1 params ∧
    List.Sublist (pg_param_list isMoeTensor params).2 params ∧
    (∀ p ∈ (pg_param_list isMoeTensor params).1, isMoeTensor p = false) ∧
    (∀ p ∈ (pg_param_list isMoeTensor params).2, isMoeTensor p = true) := by
  refine ⟨?_, ?_, ?_, ?_, ?_, ?_⟩
  · have h := List.filter_append_perm (fun x => !isMoeTensor x) params
    simpa [pg_param_list, Bool.not_not] using h
  · intro x hx hy
    have h1 : (!isMoeTensor x) = true := (List.mem_filter.mp hx).2
    have h2 : isMoeTensor x = true := (List.mem_filter.mp hy).2
    simp [h2] at h1
  · exact List.filter_sublist params
  · exact List.filter_sublist params
  · intro p hp
    have := (List.mem_filter.mp hp).2
    simpa using this
  · intro p hp
    exact (List.mem_filter.mp hp).2

/-- Concrete classifier for the C2 witness: odd parameters are expert. -/
def c2Classifier : Nat → Bool := fun p => decide (p % 2 = 1)

/-- Concrete parameter list for the C2 witness. -/
def c2Params : List Nat := [1, 2, 3, 4]

/-- Witness for C2 at a concrete classifier and parameter list. -/
theorem c2_witness :
    List.Perm
      ((pg_param_list c2Classifier c2Params).1 ++ (pg_param_list c2Classifier c2Params).2)
      c2Params ∧
    c2Classifier 2 = false ∧ c2Classifier 1 = true :=
  ⟨(c2_pg_param_list_partition c2Classifier c2Params).1,
   (c2_pg_param_list_partition c2Classifier c2Params).2.2.2.2.1 2 (by decide),
   (c2_pg_param_list_partition c2Classifier c2Params).2.2.2.2.2 1 (by decide)⟩

/-- C3: when `moe_tp_size = 1` and plugin construction succeeds, the computed
MoE mesh axis sizes satisfy `moe_dp_size * ep_size * moe_tp_size =
world_size`. -/
theorem c3_mesh_axis_product (a : PluginInitArgs) (s : PluginState)
    (htp : a.moeTpSize = 1)
    (hok : (moeHybridParallelPluginInit a).2 = .ok s) :
    s.moeDpSize * s.epSize * s.moeTpSize = a.worldSize := by
  unfold moeHybridParallelPluginInit processGroupMeshBuild at hok
  rw [htp] at hok
  rw [if_neg (by simp)] at hok
  by_cases hz : a.epSize * 1 = 0
  · rw [if_pos hz] at hok
    exact absurd hok (by simp)
  · rw [if_neg hz] at hok
    dsimp only at hok
    by_cases hprod :
        ([a.worldSize / (a.epSize * 1), a.epSize, 1] : List Nat).prod = a.worldSize
    · rw [if_pos hprod] at hok
      dsimp only at hok
      obtain rfl := (Except.ok.inj hok).symm
      simp only [List.prod_cons, List.prod_nil, mul_one] at hprod ⊢
      exact hprod
    · rw [if_neg hprod] at hok
      exact absurd hok (by simp)

/-- Valid concrete plugin arguments: world size 8, `ep_size = 4`,
`moe_tp_size = 1`. -/
def pluginArgsOk : PluginInitArgs :=
  { epSize := 4, moeTpSize := 1, forceOverlapComm := false, dpSize := 1, ppSize := 1
    zeroStage := 1, ddpFindUnusedParameters := false, worldSize := 8 }

/-- The plugin state `pluginArgsOk` constructs. -/
def pluginStateOk : PluginState :=
  { useDdp := false, ddpFindUnusedParameters := false, moeDpSize := 2, epSize := 4
    moeTpSize := 1, forceOverlapComm := false }

/-- Witness for C3 at `pluginArgsOk`: 2 * 4 * 1 = 8. -/
theorem c3_witness :
    pluginStateOk.moeDpSize * pluginStateOk.epSize * pluginStateOk.moeTpSize =
      pluginArgsOk.worldSize :=
  c3_mesh_axis_product pluginArgsOk pluginStateOk rfl (by rfl)

/-- C4: whenever `moe_tp_size ≠ 1`, plugin construction fails with the
not-implemented error and no mesh is built. -/
theorem c4_moe_tp_not_implemented (a : PluginInitArgs) (h : a.moeTpSize ≠ 1) :
    (moeHybridParallelPluginInit a).2 = .error .notImplementedError ∧
    Event.meshBuilt ∉ (moeHybridParallelPluginInit a).1 := by
  unfold moeHybridParallelPluginInit
  rw [if_pos h]
  refine ⟨rfl, ?_⟩
  dsimp only
  split <;> decide

/-- Witness for C4 at `moe_tp_size = 2`. -/
theorem c4_witness :
    (moeHybridParallelPluginInit { pluginArgsOk with moeTpSize := 2 }).2 =
        .error .notImplementedError ∧
    Event.meshBuilt ∉ (moeHybridParallelPluginInit { pluginArgsOk with moeTpSize := 2 }).1 :=
  c4_moe_tp_not_implemented { pluginArgsOk with moeTpSize := 2 } (by decide)

/-- Follows the spec's words for C5: the rebuild of the optimizer against the
post-sharding parameter list is "a required, explicit step performed by the
caller, not an automatic one" — that is, `configure` itself never performs the
reinitialization, so its trace never contains the `reinitialize_optimizer`
call. -/
def rebuildIsExplicitCallerStep (trace : List Event) : Prop :=
  Event.reinitializeOptimizer ∉ trace

/-- Concrete context for C5: `ep_size = 2`, ZeRO stage 0, fp32. -/
def c5Ctx : ConfigureCtx Nat :=
  { epSize := 2, zeroStage := 0, dpSize := 1, moeDpSize := 1, precision := .fp32
    forceOverlapComm := false, zeroOverlapCommunication := false
    zeroPartitionGrad := false, isMoeTensor := fun _ => false }

/-- C5 counterexample: with `ep_size = 2` and an unwrapped optimizer,
`configure` itself performs the reinitialization — the rebuild is automatic
inside `configure`, not a separate explicit step left to the caller. -/
theorem c5_counterexample :
    ¬ rebuildIsExplicitCallerStep
        (configure c5Ctx (ModelArg.plain 0) [0] (some (OptimizerArg.plain 0))
          (0 : Nat) (0 : Nat) (0 : Nat)).1 := by
  unfold rebuildIsExplicitCallerStep
  decide

/-- C5 (amended): when `ep_size > 1` and the optimizer argument is unwrapped,
`configure` automatically reinitializes the optimizer, and does so strictly
before any optimizer wrapper is constructed. -/
theorem c5_reinitialize_before_wrapper {P M O C D L : Type} (ctx : ConfigureCtx P)
    (model : ModelArg M) (params : List P) (o : O) (criterion : C) (dataloader : D)
    (lr : L) (h : ctx.epSize > 1) :
    reinitBeforeConstruct
      (configure ctx model params (some (OptimizerArg.plain o))
        criterion dataloader lr).1 = true := by
  rcases model with m | m <;>
    (unfold configure
     dsimp only
     rw [if_pos h]
     by_cases hz : ctx.zeroStage = 0
     · rw [if_pos hz]
       rcases hp : ctx.precision <;>
         simp [hp, reinitBeforeConstruct, constructorEvents]
     · rw [if_neg hz]
       try dsimp only
       split <;> simp [reinitBeforeConstruct, constructorEvents])

/-- Witness for C5's amended theorem at `c5Ctx`. -/
theorem c5_witness :
    reinitBeforeConstruct
      (configure c5Ctx (ModelArg.plain 0) [0] (some (OptimizerArg.plain 0))
        (0 : Nat) (0 : Nat) (0 : Nat)).1 = true :=
  c5_reinitialize_before_wrapper c5Ctx (ModelArg.plain 0) [0] 0 0 0 0 (by decide)

/-- Follows the spec's words for C6: the model's update-master-params hook is
exposed "as an explicit interface method rather than a language-level
rebinding trick". -/
def updateHookIsInterfaceMethod {M O P : Type} (m : ModelOut M O P) : Bool :=
  match m.updateMasterParams with
  | some (_, AttachMechanism.interfaceMethod) => true
  | _ => false

/-- Concrete context for C6: `ep_size = 1`, ZeRO stage 0, fp32. -/
def c6Ctx : ConfigureCtx Nat :=
  { epSize := 1, zeroStage := 0, dpSize := 2, moeDpSize := 1, precision := .fp32
    forceOverlapComm := false, zeroOverlapCommunication := false
    zeroPartitionGrad := false, isMoeTensor := fun _ => false }

/-- C6 counterexample: at a concrete configure call the hook is attached (the
model's `update_master_params` is set) but via `MethodType` rebinding, so the
"explicit interface method" predicate evaluates to `false`. -/
theorem c6_counterexample :
    (configure c6Ctx (ModelArg.plain 0) ([] : List Nat) (some (OptimizerArg.plain 0))
        (0 : Nat) (0 : Nat) (0 : Nat)).2.map
        (fun r => (r.1.updateMasterParams.isSome, updateHookIsInterfaceMethod r.1)) =
      .ok (true, false) := by
  rfl

/-- C6 (amended): for every configure call with an unwrapped optimizer that
returns successfully, the returned model carries an `update_master_params`
callable bound to the returned (newly constructed) optimizer wrapper, attached
by runtime `MethodType` rebinding rather than as an explicit interface
method. -/
theorem c6_update_master_params_rebinding {P M O C D L : Type} (ctx : ConfigureCtx P)
    (model : ModelArg M) (params : List P) (o : O) (criterion : C) (dataloader : D)
    (lr : L) (r : ModelOut M O P × OptimizerOut O P × C × D × L)
    (h : (configure ctx model params (some (OptimizerArg.plain o))
        criterion dataloader lr).2 = .ok r) :
    r.1.updateMasterParams = some (r.2.1, AttachMechanism.methodTypeRebinding) := by
  unfold configure at h
  rcases model with m | m <;>
    (dsimp only at h
     by_cases hz : ctx.zeroStage = 0
     · rw [if_pos hz] at h
       rcases hp : ctx.precision <;> rw [hp] at h <;> dsimp only at h <;>
         (obtain rfl := (Except.ok.inj h).symm; rfl)
     · rw [if_neg hz] at h
       try dsimp only at h
       split at h
       · simp at h
       · obtain rfl := (Except.ok.inj h).symm
         rfl)

/-- Witness for C6's amended theorem at `c6Ctx`. -/
theorem c6_witness :
    ({ base := 0, wasWrapperInput := false, wrappedByConfigure := true
       updateMasterParams :=
         some (OptimizerOut.naive 0, AttachMechanism.methodTypeRebinding) } :
        ModelOut Nat Nat Nat).updateMasterParams =
      some ((OptimizerOut.naive 0 : OptimizerOut Nat Nat),
        AttachMechanism.methodTypeRebinding) :=
  c6_update_master_params_rebinding c6Ctx (ModelArg.plain 0) [] 0 0 0 0
    ({ base := 0, wasWrapperInput := false, wrappedByConfigure := true
       updateMasterParams :=
         some (OptimizerOut.naive 0, AttachMechanism.methodTypeRebinding) },
     OptimizerOut.naive 0, 0, 0, 0) (by rfl)

/-- Returns `true` on `Except.ok` and `false` on `Except.error`. -/
def exceptIsOk {ε α : Type} : Except ε α → Bool
  | .ok _ => true
  | .error _ => false

/-- C7: when `dp_size > 1`, `pp_size = 1` and `zero_stage = 0`, the plugin
constructor warns (non-fatally) and sets
`ddp_config["find_unused_parameters"] = True` — and, the MoE arguments being
valid, construction succeeds; for every other size combination the flag is
left untouched and no such warning is emitted. -/
theorem c7_ddp_find_unused_parameters (a : PluginInitArgs) :
    (a.dpSize > 1 ∧ a.ppSize = 1 ∧ a.zeroStage = 0 →
       Event.warnFindUnusedParams ∈ (moeHybridParallelPluginInit a).1 ∧
       Event.ddpSetFindUnused ∈ (moeHybridParallelPluginInit a).1 ∧
       (∀ s, (moeHybridParallelPluginInit a).2 = .ok s →
          s.ddpFindUnusedParameters = true) ∧
       (a.moeTpSize = 1 → 0 < a.epSize → a.epSize ∣ a.worldSize →
          exceptIsOk (moeHybridParallelPluginInit a).2 = true)) ∧
    (¬(a.dpSize > 1 ∧ a.ppSize = 1 ∧ a.zeroStage = 0) →
       Event.warnFindUnusedParams ∉ (moeHybridParallelPluginInit a).1 ∧
       (∀ s, (moeHybridParallelPluginInit a).2 = .ok s →
          s.ddpFindUnusedParameters = a.ddpFindUnusedParameters)) := by
  by_cases hc : a.dpSize > 1 ∧ a.ppSize = 1 ∧ a.zeroStage = 0
  · have hB : (a.dpSize > 1 && a.ppSize == 1 && a.zeroStage == 0) = true := by
      simp [hc.1, hc.2.1, hc.2.2]
    constructor
    · intro _
      unfold moeHybridParallelPluginInit
      rw [hB]
      dsimp only
      refine ⟨?_, ?_, ?_, ?_⟩
      · split
        · simp
        · split
          · simp
          · split <;> simp
      · split
        · simp
        · split
          · simp
          · split <;> simp
      · intro s hs
        split at hs
        · simp at hs
        · split at hs
          · simp at hs
          · split at hs
            · simp at hs
            · obtain rfl := (Except.ok.inj hs).symm
              rfl
      · intro htp hep hdvd
        rw [if_neg (by simp [htp])]
        rw [if_neg (by simp [htp]; omega)]
        try dsimp only
        rw [htp]
        unfold processGroupMeshBuild
        rw [if_pos (by
          simp only [List.prod_cons, List.prod_nil, mul_one]
          exact Nat.div_mul_cancel hdvd)]
        rfl
    · intro hnc
      exact absurd hc hnc
  · have hB : (a.dpSize > 1 && a.ppSize == 1 && a.zeroStage == 0) = false := by
      rcases Decidable.not_and_iff_or_not.mp hc with h | h
      · simp [h]
      · rcases Decidable.not_and_iff_or_not.mp h with h2 | h2 <;> simp [h2]
    constructor
    · intro hcc
      exact absurd hcc hc
    · intro _
      unfold moeHybridParallelPluginInit
      rw [hB]
      dsimp only
      constructor
      · split
        · simp
        · split
          · simp
          · split <;> simp
      · intro s hs
        split at hs
        · simp at hs
        · split at hs
          · simp at hs
          · split at hs
            · simp at hs
            · obtain rfl := (Except.ok.inj hs).symm
              rfl

/-- Plugin arguments for the C7 witness: DDP mode (`dp_size = 2`,
`pp_size = 1`, `zero_stage = 0`), world size 8, `ep_size = 4`. -/
def pluginArgsDdp : PluginInitArgs :=
  { epSize := 4, moeTpSize := 1, forceOverlapComm := false, dpSize := 2, ppSize := 1
    zeroStage := 0, ddpFindUnusedParameters := false, worldSize := 8 }

/-- Witness for C7: at `pluginArgsDdp` the DDP-mode branch applies, and at
`pluginArgsOk` (whose `zero_stage` is 1) the flag is untouched. -/
theorem c7_witness :
    Event.warnFindUnusedParams ∈ (moeHybridParallelPluginInit pluginArgsDdp).1 ∧
    exceptIsOk (moeHybridParallelPluginInit pluginArgsDdp).2 = true ∧
    Event.warnFindUnusedParams ∉ (moeHybridParallelPluginInit pluginArgsOk).1 :=
  ⟨((c7_ddp_find_unused_parameters pluginArgsDdp).1
      (by refine ⟨by decide, rfl, rfl⟩)).1,
   ((c7_ddp_find_unused_parameters pluginArgsDdp).1
      (by refine ⟨by decide, rfl, rfl⟩)).2.2.2 rfl (by decide) (by decide),
   ((c7_ddp_find_unused_parameters pluginArgsOk).2 (by
      rintro ⟨-, -, h⟩
      exact absurd h (by decide))).1⟩

/-- C8: when `zero_stage > 0` and both the data-parallel and the
expert-data-parallel sizes are degenerate (not > 1), `configure` with an
unwrapped optimizer emits the inefficiency warning and — the overlap check
passing — still constructs and returns the `MoeHybridParallelZeroOptimizer`:
the degenerate-group condition is a warning, never an error. -/
theorem c8_degenerate_groups_warning {P M O C D L : Type} (ctx : ConfigureCtx P)
    (model : ModelArg M) (params : List P) (o : O) (criterion : C) (dataloader : D)
    (lr : L) (hz : ctx.zeroStage ≠ 0) (hdp : ¬(ctx.dpSize > 1 ∨ ctx.moeDpSize > 1))
    (hcheck : (!ctx.forceOverlapComm &&
        (ctx.zeroOverlapCommunication || ctx.zeroPartitionGrad)) = false) :
    Event.warnZeroOverhead ∈
      (configure ctx model params (some (OptimizerArg.plain o))
        criterion dataloader lr).1 ∧
    (configure ctx model params (some (OptimizerArg.plain o))
        criterion dataloader lr).2.map (fun r => isMoeZeroOut r.2.1) = .ok true := by
  rcases model with m | m <;>
    (unfold configure
     dsimp only
     rw [if_neg hz, if_pos hdp]
     unfold moeZeroOptimizerInit
     dsimp only
     rw [hcheck]
     rw [if_neg (by simp)]
     constructor
     · split <;> split <;> simp
     · rfl)

/-- Concrete context for the C8 witness: ZeRO stage 1, all sizes 1, overlap
not requested. -/
def c8Ctx : ConfigureCtx Nat :=
  { epSize := 1, zeroStage := 1, dpSize := 1, moeDpSize := 1, precision := .fp16
    forceOverlapComm := false, zeroOverlapCommunication := false
    zeroPartitionGrad := false, isMoeTensor := fun p => decide (p % 2 = 1) }

/-- Witness for C8 at `c8Ctx`. -/
theorem c8_witness :
    Event.warnZeroOverhead ∈
      (configure c8Ctx (ModelArg.plain 0) [1, 2] (some (OptimizerArg.plain 0))
        (0 : Nat) (0 : Nat) (0 : Nat)).1 ∧
    (configure c8Ctx (ModelArg.plain 0) [1, 2] (some (OptimizerArg.plain 0))
        (0 : Nat) (0 : Nat) (0 : Nat)).2.map (fun r => isMoeZeroOut r.2.1) =
      .ok true :=
  c8_degenerate_groups_warning c8Ctx (ModelArg.plain 0) [1, 2] 0 0 0 0
    (by decide) (by decide) (by decide)

/-- C9: every successful `configure` call returns `criterion`, `dataloader`
and `lr_scheduler` unchanged, and a model that was already a wrapper is
returned without being wrapped again. -/
theorem c9_configure_frame {P M O C D L : Type} (ctx : ConfigureCtx P)
    (model : ModelArg M) (params : List P) (optimizer : Option (OptimizerArg O))
    (criterion : C) (dataloader : D) (lr : L)
    (r : ModelOut M O P × OptimizerOut O P × C × D × L)
    (h : (configure ctx model params optimizer criterion dataloader lr).2 = .ok r) :
    r.2.2.1 = criterion ∧ r.2.2.2.1 = dataloader ∧ r.2.2.2.2 = lr ∧
    (∀ m, model = ModelArg.wrapper m →
       r.1.wrappedByConfigure = false ∧ r.1.base = m) := by
  unfold configure at h
  rcases model with m | m <;> rcases optimizer with _ | o | o <;>
    (try dsimp only at h) <;>
    first
      | (obtain rfl := (Except.ok.inj h).symm
         refine ⟨rfl, rfl, rfl, fun m' hm => ?_⟩
         cases hm <;> exact ⟨rfl, rfl⟩)
      | (by_cases hz : ctx.zeroStage = 0
         · rw [if_pos hz] at h
           rcases hp : ctx.precision <;> rw [hp] at h <;> (try dsimp only at h) <;>
             (obtain rfl := (Except.ok.inj h).symm
              refine ⟨rfl, rfl, rfl, fun m' hm => ?_⟩
              cases hm <;> exact ⟨rfl, rfl⟩)
         · rw [if_neg hz] at h
           try dsimp only at h
           split at h
           · simp at h
           · obtain rfl := (Except.ok.inj h).symm
             refine ⟨rfl, rfl, rfl, fun m' hm => ?_⟩
             cases hm <;> exact ⟨rfl, rfl⟩)

/-- Witness for C9 at a concrete call: already-wrapped model, `None`
optimizer. -/
theorem c9_witness :
    ((0 : Nat), (0 : Nat), (0 : Nat)).1 = (0 : Nat) ∧
    ((0 : Nat), (0 : Nat), (0 : Nat)).2.1 = (0 : Nat) ∧
    ((0 : Nat), (0 : Nat), (0 : Nat)).2.2 = (0 : Nat) ∧
    (∀ m, (ModelArg.wrapper (5 : Nat) : ModelArg Nat) = ModelArg.wrapper m →
       ({ base := 5, wasWrapperInput := true, wrappedByConfigure := false
          updateMasterParams := none } : ModelOut Nat Nat Nat).wrappedByConfigure
           = false ∧
       ({ base := 5, wasWrapperInput := true, wrappedByConfigure := false
          updateMasterParams := none } : ModelOut Nat Nat Nat).base = m) :=
  c9_configure_frame c6Ctx (ModelArg.wrapper 5) [] none 0 0 0
    ({ base := 5, wasWrapperInput := true, wrappedByConfigure := false
       updateMasterParams := none },
     OptimizerOut.passthrough none, 0, 0, 0) (by rfl)

/-- C10: when the optimizer argument is `None` or already an
`OptimizerWrapper`, `configure` performs no reinitialization, constructs no
optimizer wrapper, attaches no update-master-params method, and returns the
optimizer exactly as passed. -/
theorem c10_optimizer_passthrough {P M O C D L : Type} (ctx : ConfigureCtx P)
    (model : ModelArg M) (params : List P) (optimizer : Option (OptimizerArg O))
    (criterion : C) (dataloader : D) (lr : L)
    (h : passthroughOptimizerArg optimizer = true) :
    Event.reinitializeOptimizer ∉
      (configure ctx model params optimizer criterion dataloader lr).1 ∧
    Event.constructAMPOptimizer ∉
      (configure ctx model params optimizer criterion dataloader lr).1 ∧
    Event.constructNaiveOptimizer ∉
      (configure ctx model params optimizer criterion dataloader lr).1 ∧
    Event.constructZeroOptimizer ∉
      (configure ctx model params optimizer criterion dataloader lr).1 ∧
    Event.attachUpdateMasterParams ∉
      (configure ctx model params optimizer criterion dataloader lr).1 ∧
    (configure ctx model params optimizer criterion dataloader lr).2.map
      (fun r => r.2.1) = .ok (OptimizerOut.passthrough optimizer) ∧
    (configure ctx model params optimizer criterion dataloader lr).2.map
      (fun r => r.1.updateMasterParams) = .ok none := by
  rcases optimizer with _ | o | o
  · rcases model with m | m <;>
      (unfold configure; dsimp only; refine ⟨?_, ?_, ?_, ?_, ?_, rfl, rfl⟩ <;> decide)
  · simp [passthroughOptimizerArg] at h
  · rcases model with m | m <;>
      (unfold configure; dsimp only; refine ⟨?_, ?_, ?_, ?_, ?_, rfl, rfl⟩ <;> decide)

/-- Witness for C10 at a concrete call with an already-wrapped optimizer. -/
theorem c10_witness :
    Event.reinitializeOptimizer ∉
      (configure c6Ctx (ModelArg.plain 0) ([] : List Nat)
        (some (OptimizerArg.wrapper 7)) (0 : Nat) (0 : Nat) (0 : Nat)).1 ∧
    Event.constructAMPOptimizer ∉
      (configure c6Ctx (ModelArg.plain 0) ([] : List Nat)
        (some (OptimizerArg.wrapper 7)) (0 : Nat) (0 : Nat) (0 : Nat)).1 ∧
    Event.constructNaiveOptimizer ∉
      (configure c6Ctx (ModelArg.plain 0) ([] : List Nat)
        (some (OptimizerArg.wrapper 7)) (0 : Nat) (0 : Nat) (0 : Nat)).1 ∧
    Event.constructZeroOptimizer ∉
      (configure c6Ctx (ModelArg.plain 0) ([] : List Nat)
        (some (OptimizerArg.wrapper 7)) (0 : Nat) (0 : Nat) (0 : Nat)).1 ∧
    Event.attachUpdateMasterParams ∉
      (configure c6Ctx (ModelArg.plain 0) ([] : List Nat)
        (some (OptimizerArg.wrapper 7)) (0 : Nat) (0 : Nat) (0 : Nat)).1 ∧
    (configure c6Ctx (ModelArg.plain 0) ([] : List Nat)
        (some (OptimizerArg.wrapper 7)) (0 : Nat) (0 : Nat) (0 : Nat)).2.map
      (fun r => r.2.1) = .ok (OptimizerOut.passthrough (some (OptimizerArg.wrapper 7))) ∧
    (configure c6Ctx (ModelArg.plain 0) ([] : List Nat)
        (some (OptimizerArg.wrapper 7)) (0 : Nat) (0 : Nat) (0 : Nat)).2.map
      (fun r => r.1.updateMasterParams) = .ok none :=
  c10_optimizer_passthrough c6Ctx (ModelArg.plain 0) [] (some (OptimizerArg.wrapper 7))
    0 0 0 (by decide)

end MoePlugin
